import Mathlib

/-!
Verification development for the financial-dashboard MVP (src/app.py).

The embedding mirrors the data-fetch-and-normalize pipeline:
  - `timeframe_mapping`  : the label → yfinance period map (app.py lines 65-73)
  - `get_historical_data`: the soft-failing fetcher (app.py lines 59-93),
    parameterised by the provider call `yf.download`
  - `normalized_prices`  : the normalize-to-100 series (app.py line 192)
  - `performance`        : the final percentage performance (app.py line 223)
  - `chart_traces` / `perf_data`: the two per-asset loops (lines 189-203, 218-227)
  - `lastClose`, `prevClose`, `change`, `change_pct`: the latest snapshot
    (app.py lines 284-287 and 345-349)
  - a cache state machine for the `st.cache_data(ttl=300)` decorator, whose
    implementation lives in the Streamlit library, not in this repository;
    it is modelled from the spec (sections 3 and 4.2).

Prices are embedded as rationals.  The source computes in floating point;
a division whose divisor is zero produces a non-finite float (inf or NaN),
never a real number, so partial division `qdiv` returns `none` exactly there.
For a nonzero divisor, float division by itself is exact (x / x = 1 in IEEE),
so the exactness claims about the value 100 transfer.
-/

/-- One OHLCV row of the provider's table (spec section 3, `OhlcvBar`). -/
structure OhlcvBar where
  date : Nat
  openPrice : ℚ
  high : ℚ
  low : ℚ
  close : ℚ
  volume : Nat
deriving DecidableEq, Repr

/-- Column header shape of the downloaded frame: flat names, or a pandas
MultiIndex of name tuples (app.py line 83 tests for the latter). -/
inductive ColumnShape where
  | flat (names : List String)
  | multi (names : List (List String))
deriving DecidableEq, Repr

/-- The raw frame `yf.download` hands back: a column shape plus rows. -/
structure RawFrame where
  shape : ColumnShape
  rows : List OhlcvBar
deriving DecidableEq, Repr

/-- Outcome of the `yf.download` call (app.py line 76): either a frame, or a
raised exception carrying its message. -/
inductive DownloadResult where
  | frame (df : RawFrame)
  | raised (msg : String)
deriving DecidableEq, Repr

/-- A Streamlit message reported to the caller: `st.warning` or `st.error`. -/
inductive UiMessage where
  | warningMsg (text : String)
  | errorMsg (text : String)
deriving DecidableEq, Repr

/-- What `get_historical_data` returns, together with the messages it
reported on the way (app.py lines 79, 92). -/
structure FetchResult where
  messages : List UiMessage
  series : List OhlcvBar
deriving DecidableEq, Repr

/-- app.py lines 65-73: the dict `timeframe_mapping` read through
`.get(period_string, "3mo")` — five labels, default `"3mo"`. -/
def timeframe_mapping (label : String) : String :=
  if label = "1M" then "1mo"
  else if label = "3M" then "3mo"
  else if label = "6M" then "6mo"
  else if label = "1Y" then "1y"
  else if label = "2Y" then "2y"
  else "3mo"

/-- app.py line 84: `data.columns = [col[0] for col in data.columns]`.
Taking `col[0]` of an empty tuple raises IndexError inside the `try`,
modelled by `none`; a flat header needs no flattening. -/
def flatten_columns : ColumnShape → Option (List String)
  | ColumnShape.flat names => some names
  | ColumnShape.multi names => names.mapM List.head?

/-- app.py lines 59-93, `get_historical_data(ticker, period_string)`:
resolve the label, call the provider, return an empty frame with a warning
when no rows came back, an empty frame with an error when the call raised or
the columns cannot be flattened, and the rows otherwise.  `download` stands
for `yf.download`. -/
def get_historical_data (download : String → String → DownloadResult)
    (ticker period_string : String) : FetchResult :=
  let yf_period := timeframe_mapping period_string
  match download ticker yf_period with
  | DownloadResult.raised e =>
      ⟨[UiMessage.errorMsg ("Error fetching data for " ++ ticker ++ ": " ++ e)], []⟩
  | DownloadResult.frame df =>
      if df.rows.isEmpty then
        ⟨[UiMessage.warningMsg ("No data found for ticker: " ++ ticker)], []⟩
      else
        match flatten_columns df.shape with
        | none =>
            ⟨[UiMessage.errorMsg ("Error fetching data for " ++ ticker ++ ": index out of range")], []⟩
        | some _ => ⟨[], df.rows⟩

/-- Division as the source's float division behaves on real operands: `none`
when the divisor is zero (the float result inf or NaN is not a number),
the exact quotient otherwise. -/
def qdiv (a b : ℚ) : Option ℚ :=
  if b = 0 then none else some (a / b)

/-- app.py line 192: `(data['Close'] / data['Close'].iloc[0]) * 100`, the
normalize-to-100 series, computed only for a non-empty frame (guard on
line 190). -/
def normalized_prices : List OhlcvBar → List (Option ℚ)
  | [] => []
  | b0 :: rest => (b0 :: rest).map (fun b => (qdiv b.close b0.close).map (fun r => r * 100))

/-- app.py line 223: `((end_price - start_price) / start_price) * 100`. -/
def performance (start_price end_price : ℚ) : Option ℚ :=
  (qdiv (end_price - start_price) start_price).map (fun r => r * 100)

/-- `data['Close'].iloc[0]` of a non-empty frame (default 0 unused: every
caller guards non-emptiness). -/
def firstClose : List OhlcvBar → ℚ
  | [] => 0
  | b :: _ => b.close

/-- `data['Close'].iloc[-1]` of a non-empty frame (default 0 unused). -/
def lastClose : List OhlcvBar → ℚ
  | [] => 0
  | [b] => b.close
  | _ :: b :: bs => lastClose (b :: bs)

/-- app.py line 285: `data['Close'].iloc[-2] if len(data) > 1 else
current_price` — the previous close, or the latest close itself for a
single-bar series. -/
def prevClose (data : List OhlcvBar) : ℚ :=
  if 1 < data.length then lastClose data.dropLast else lastClose data

/-- app.py line 286: `change = current_price - prev_price`. -/
def change (data : List OhlcvBar) : ℚ :=
  lastClose data - prevClose data

/-- app.py line 287 (same expression on line 349):
`(change / prev_price) * 100 if prev_price > 0 else 0`. -/
def change_pct (data : List OhlcvBar) : ℚ :=
  if 0 < prevClose data then (change data / prevClose data) * 100 else 0

/-- app.py lines 189-203: the chart loop over `asset_data.items()` — one
trace of normalized prices per asset whose frame has at least one row
(the frame always carries a Close column in this schema, so the
`'Close' in data.columns` test on line 190 is identically true). -/
def chart_traces (asset_data : List (String × List OhlcvBar)) :
    List (String × List (Option ℚ)) :=
  asset_data.filterMap (fun p =>
    if 0 < p.2.length then some (p.1, normalized_prices p.2) else none)

/-- app.py lines 218-227: the performance-summary loop — one row per asset
whose frame has more than one row (line 220), with
`start_price = iloc[0]` and `end_price = iloc[-1]`. -/
def perf_data (asset_data : List (String × List OhlcvBar)) :
    List (String × Option ℚ) :=
  asset_data.filterMap (fun p =>
    if 1 < p.2.length then some (p.1, performance (firstClose p.2) (lastClose p.2)) else none)

/-- Modelled from the spec: the `st.cache_data(ttl=300)` store of app.py
line 58 lives in the Streamlit library, not in this repository.  Spec
section 3 `CacheEntry`: keyed by (ticker, label), value plus an absolute
expiry timestamp of insertion time + TTL. -/
structure CacheEntry where
  series : List OhlcvBar
  expiry : Nat
deriving DecidableEq, Repr

/-- Modelled from the spec: the cache store, an association of
(ticker, label) keys to entries. -/
structure CacheState where
  entries : List ((String × String) × CacheEntry)
deriving DecidableEq, Repr

/-- The fixed TTL: 300 seconds (app.py line 58, spec section 3). -/
def cache_ttl : Nat := 300

/-- Modelled from the spec: lookup with lazy eviction — an entry whose
expiry has passed is treated as absent (spec section 3). -/
def cache_lookup (st : CacheState) (key : String × String) (now : Nat) :
    Option (List OhlcvBar) :=
  match st.entries.find? (fun p => p.1 == key) with
  | some (_, e) => if now < e.expiry then some e.series else none
  | none => none

/-- Modelled from the spec: insertion replaces any prior entry for the key
wholesale, with a fresh expiry of now + TTL (spec sections 3 and 4.2.7). -/
def cache_put (st : CacheState) (key : String × String)
    (series : List OhlcvBar) (now : Nat) : CacheState :=
  ⟨(key, ⟨series, now + cache_ttl⟩) :: st.entries.filter (fun p => p.1 != key)⟩

/-- app.py line 34: `st.cache_data.clear()` on manual refresh — a full
eager invalidation (spec section 3). -/
def cache_clear (_st : CacheState) : CacheState := ⟨[]⟩

/-- Result of one cached fetch: the new cache state, the fetch result, and
how many upstream provider calls were issued (0 or 1). -/
structure CachedFetch where
  state : CacheState
  result : FetchResult
  upstream_calls : Nat
deriving DecidableEq, Repr

/-- Modelled from the spec: the behaviour of `get_historical_data` under
the `st.cache_data(ttl=300)` decorator, per spec section 4.2 — return the
cached series on an unexpired hit with no upstream call; on a miss issue
exactly one upstream call, and write the result into the cache only when
it is successful and non-empty (spec step 7). -/
def cached_fetch (download : String → String → DownloadResult)
    (st : CacheState) (ticker label : String) (now : Nat) : CachedFetch :=
  match cache_lookup st (ticker, label) now with
  | some series => ⟨st, ⟨[], series⟩, 0⟩
  | none =>
      let r := get_historical_data download ticker label
      if r.series.isEmpty then ⟨st, r, 1⟩
      else ⟨cache_put st (ticker, label) r.series now, r, 1⟩

/-- A sample bar with positive prices, for concrete witnesses. -/
def demoBar : OhlcvBar := ⟨0, 100, 110, 90, 100, 1000⟩

/-- A second sample bar, close 105. -/
def demoBar2 : OhlcvBar := ⟨1, 100, 112, 95, 105, 1200⟩

/-- A degenerate bar whose close is zero (prices are non-negative floats in
the source's data model, so zero is admissible). -/
def zeroBar : OhlcvBar := ⟨0, 0, 0, 0, 0, 0⟩

/-- A provider that always succeeds with one flat-column bar. -/
def demoDownload : String → String → DownloadResult :=
  fun _ _ => DownloadResult.frame ⟨ColumnShape.flat (["Open", "High", "Low", "Close", "Volume"]), [demoBar]⟩

/-- A provider that always returns zero rows (e.g. an unknown ticker). -/
def emptyDownload : String → String → DownloadResult :=
  fun _ _ => DownloadResult.frame ⟨ColumnShape.flat (["Open", "High", "Low", "Close", "Volume"]), []⟩

/-- A two-bar series whose previous close is negative, for witnesses. -/
def negBar : OhlcvBar := ⟨0, 1, 1, 1, -5, 10⟩

/-- A provider whose call raises (network failure etc.). -/
def raisingDownload : String → String → DownloadResult :=
  fun _ _ => DownloadResult.raised ("HTTPError")

/-- A cache that already holds a fresh entry for (^GSPC, 3M). -/
def demoCache : CacheState :=
  ⟨[((("^GSPC"), ("3M")), ⟨[demoBar], 300⟩)]⟩

/-- C6: the timeframe resolver is total and pure: the five labels 1M, 3M,
6M, 1Y, 2Y map to 1mo, 3mo, 6mo, 1y, 2y respectively, and every other
input string maps to the 3-month code "3mo". -/
theorem c6_timeframe_resolver :
    timeframe_mapping ("1M") = "1mo" ∧ timeframe_mapping ("3M") = "3mo" ∧
    timeframe_mapping ("6M") = "6mo" ∧ timeframe_mapping ("1Y") = "1y" ∧
    timeframe_mapping ("2Y") = "2y" ∧
    ∀ s : String, s ∉ (["1M", "3M", "6M", "1Y", "2Y"] : List String) →
      timeframe_mapping s = "3mo" := by
  refine ⟨rfl, rfl, rfl, rfl, rfl, ?_⟩
  intro s hs
  simp only [List.mem_cons, List.mem_singleton, not_or] at hs
  obtain ⟨h1, h2, h3, h4, h5, _⟩ := hs
  simp [timeframe_mapping, h1, h2, h3, h4, h5]

/-- Witness for C6 at the out-of-set label "5Y". -/
theorem c6_timeframe_resolver_witness :
    ("5Y" : String) ∉ (["1M", "3M", "6M", "1Y", "2Y"] : List String) ∧
    timeframe_mapping ("5Y") = "3mo" :=
  ⟨by decide, c6_timeframe_resolver.2.2.2.2.2 ("5Y") (by decide)⟩

/-- C9: on a single-bar series the latest snapshot's absolute change and
percentage change are both exactly 0 (the previous close is the latest
close itself). -/
theorem c9_single_bar_snapshot (b : OhlcvBar) :
    change [b] = 0 ∧ change_pct [b] = 0 := by
  have hprev : prevClose [b] = b.close := by
    simp [prevClose, lastClose]
  have hchange : change [b] = 0 := by
    simp [change, hprev, lastClose]
  refine ⟨hchange, ?_⟩
  by_cases h : 0 < prevClose [b]
  · simp [change_pct, h, hchange]
  · simp [change_pct, h]

/-- C10: for a series of at least two bars, the percentage change is
exactly 0 whenever the previous close is less than or equal to zero —
the guard tests strict positivity, not mere equality with zero. -/
theorem c10_nonpositive_prev_guard (data : List OhlcvBar)
    (_hlen : 2 ≤ data.length) (hprev : prevClose data ≤ 0) :
    change_pct data = 0 := by
  simp [change_pct, not_lt.mpr hprev]

/-- Witness for C10 on a two-bar series with previous close -5. -/
theorem c10_nonpositive_prev_guard_witness :
    2 ≤ ([negBar, demoBar] : List OhlcvBar).length ∧
    prevClose [negBar, demoBar] ≤ 0 ∧
    change_pct [negBar, demoBar] = 0 :=
  ⟨by decide, by decide,
    c10_nonpositive_prev_guard [negBar, demoBar] (by decide) (by decide)⟩

/-- C2 counterexample: on the non-empty series whose single bar has close 0
(closes are non-negative floats in the data model, so 0 is admissible), the
first normalized value is the non-finite 0/0, not 100. -/
theorem c2_counterexample :
    (normalized_prices [zeroBar]).head? ≠ some (some 100) := by decide

/-- C2 amended: for every non-empty OhlcvSeries whose FIRST CLOSE IS
NONZERO, the first value of the normalized output series equals exactly
100; a zero first close instead makes the division 0/0 non-finite. -/
theorem c2_normalized_first_value (b : OhlcvBar) (rest : List OhlcvBar)
    (hb : b.close ≠ 0) :
    (normalized_prices (b :: rest)).head? = some (some 100) := by
  simp [normalized_prices, qdiv, hb, div_self]

/-- Witness for C2 (amended) on a two-bar series with first close 100. -/
theorem c2_normalized_first_value_witness :
    demoBar.close ≠ 0 ∧
    (normalized_prices [demoBar, demoBar2]).head? = some (some 100) :=
  ⟨by decide, c2_normalized_first_value demoBar [demoBar2] (by decide)⟩

/-- C3 counterexample: the final-performance division with a zero divisor
(start price 0) is not defined as zero — it is the non-finite 5/0; the
normalized-to-100 division with a zero first close likewise yields no
number.  Only `change_pct` carries a guard in the source. -/
theorem c3_counterexample :
    performance 0 5 = none ∧ performance 0 5 ≠ some 0 ∧
    normalized_prices [zeroBar] = [none] := by decide

/-- C3 amended: only the latest-vs-previous percentage change is guarded
against a zero (indeed any non-positive) divisor, yielding 0; the
normalized-to-100 series and the final percentage performance are
unguarded, and a zero divisor makes every normalized value, respectively
the performance value, non-finite (`none`) rather than zero. -/
theorem c3_division_guards :
    (∀ data : List OhlcvBar, prevClose data ≤ 0 → change_pct data = 0) ∧
    (∀ (b : OhlcvBar) (rest : List OhlcvBar), b.close = 0 →
        normalized_prices (b :: rest) = List.replicate (rest.length + 1) none) ∧
    (∀ endPrice : ℚ, performance 0 endPrice = none) := by
  refine ⟨?_, ?_, ?_⟩
  · intro data h
    simp [change_pct, not_lt.mpr h]
  · intro b rest hb
    simp [normalized_prices, qdiv, hb, List.replicate_succ]
  · intro endPrice
    simp [performance, qdiv]

/-- Witness for C3 (amended): a guarded zero divisor in `change_pct` gives
0, while the unguarded divisions give no number at all. -/
theorem c3_division_guards_witness :
    change_pct [zeroBar, zeroBar] = 0 ∧
    normalized_prices [zeroBar] = List.replicate 1 none ∧
    performance 0 5 = none :=
  ⟨c3_division_guards.1 [zeroBar, zeroBar] (by decide),
   c3_division_guards.2.1 zeroBar [] rfl,
   c3_division_guards.2.2 5⟩

/-- C1: for every ticker and timeframe label, `get_historical_data` never
propagates an exception — it is a total function by construction — and
whenever the provider call raises, or the provider returns no rows, or the
column shape cannot be flattened, it reports exactly one warning/error
message and returns an empty series. -/
theorem c1_fetch_fails_soft (download : String → String → DownloadResult)
    (ticker period_string : String)
    (h : (∃ e, download ticker (timeframe_mapping period_string) = DownloadResult.raised e) ∨
         (∃ df, download ticker (timeframe_mapping period_string) = DownloadResult.frame df ∧
            (df.rows = [] ∨ flatten_columns df.shape = none))) :
    (get_historical_data download ticker period_string).series = [] ∧
    (get_historical_data download ticker period_string).messages.length = 1 := by
  unfold get_historical_data
  rcases h with ⟨e, he⟩ | ⟨df, hdf, hrows | hflat⟩
  · simp [he]
  · simp [hdf, hrows]
  · by_cases hr : df.rows.isEmpty
    · simp [hdf, hr]
    · simp [hdf, hr, hflat]

/-- Witness for C1 with a provider whose call raises. -/
theorem c1_fetch_fails_soft_witness :
    (get_historical_data raisingDownload ("^GSPC") ("3M")).series = [] ∧
    (get_historical_data raisingDownload ("^GSPC") ("3M")).messages.length = 1 :=
  c1_fetch_fails_soft raisingDownload ("^GSPC") ("3M") (Or.inl ⟨("HTTPError"), rfl⟩)

/-- An asset named so by `filterMap` over a guarded `if` is exactly an
asset of the input whose series passes the length bound. -/
theorem mem_map_fst_filterMap_guard {γ : Type} (m : List (String × List OhlcvBar))
    (name : String) (k : Nat) (g : String × List OhlcvBar → γ) :
    (name ∈ (m.filterMap (fun p =>
        if k < p.2.length then some (p.1, g p) else none)).map Prod.fst) ↔
      ∃ s, (name, s) ∈ m ∧ k < s.length := by
  rw [List.mem_map]
  constructor
  · rintro ⟨pair, hpair, hfst⟩
    rw [List.mem_filterMap] at hpair
    obtain ⟨p, hp, hfp⟩ := hpair
    by_cases h : k < p.2.length
    · rw [if_pos h] at hfp
      injection hfp with hh
      subst hh
      have hname : p.1 = name := hfst
      refine ⟨p.2, ?_, h⟩
      rw [← hname]
      simpa using hp
    · rw [if_neg h] at hfp
      exact absurd hfp (by simp)
  · rintro ⟨s, hs, hks⟩
    refine ⟨(name, g (name, s)), ?_, rfl⟩
    rw [List.mem_filterMap]
    exact ⟨(name, s), hs, by simp [hks]⟩

/-- C5 counterexample: an asset whose series has exactly one bar appears in
the normalized chart (guard `len(data) > 0`) but NOT in the performance
summary table (guard `len(data) > 1`), so inclusion in both is not
"at least one bar". -/
theorem c5_counterexample :
    (chart_traces [(("A"), [demoBar])]).map Prod.fst = [("A")] ∧
    (perf_data [(("A"), [demoBar])]).map Prod.fst = [] := by decide

/-- C5 amended: the normalized chart includes exactly the assets whose
series has at least one bar, while the performance summary table includes
exactly those with at least two bars; assets with zero bars are silently
excluded from both, without failing the whole batch. -/
theorem c5_inclusion (m : List (String × List OhlcvBar)) (name : String) :
    (name ∈ (chart_traces m).map Prod.fst ↔ ∃ s, (name, s) ∈ m ∧ 1 ≤ s.length) ∧
    (name ∈ (perf_data m).map Prod.fst ↔ ∃ s, (name, s) ∈ m ∧ 2 ≤ s.length) :=
  ⟨mem_map_fst_filterMap_guard m name 0 (fun p => normalized_prices p.2),
   mem_map_fst_filterMap_guard m name 1
     (fun p => performance (firstClose p.2) (lastClose p.2))⟩

/-- Definitional equation of `cached_fetch` on a cache miss. -/
theorem cached_fetch_miss_eq (download : String → String → DownloadResult)
    (st : CacheState) (ticker label : String) (now : Nat)
    (hmiss : cache_lookup st (ticker, label) now = none) :
    cached_fetch download st ticker label now =
      if (get_historical_data download ticker label).series.isEmpty
      then ⟨st, get_historical_data download ticker label, 1⟩
      else ⟨cache_put st (ticker, label)
              (get_historical_data download ticker label).series now,
            get_historical_data download ticker label, 1⟩ := by
  unfold cached_fetch
  rw [hmiss]

/-- Definitional equation of `cached_fetch` on an unexpired cache hit. -/
theorem cached_fetch_hit_eq (download : String → String → DownloadResult)
    (st : CacheState) (ticker label : String) (now : Nat)
    (series : List OhlcvBar)
    (hhit : cache_lookup st (ticker, label) now = some series) :
    cached_fetch download st ticker label now = ⟨st, ⟨[], series⟩, 0⟩ := by
  unfold cached_fetch
  rw [hhit]

/-- A fresh insertion is immediately visible: looking the key up at
insertion time returns the stored series (the expiry lies TTL ahead). -/
theorem cache_lookup_put (st : CacheState) (key : String × String)
    (series : List OhlcvBar) (now : Nat) :
    cache_lookup (cache_put st key series now) key now = some series := by
  unfold cache_lookup cache_put
  rw [List.find?_cons_of_pos]
  · have hlt : now < now + cache_ttl := Nat.lt_add_of_pos_right (by decide)
    simp [hlt]
  · simp

/-- Insertion replaces wholesale: the new state holds exactly one entry for
the key, carrying the stored series and the fresh expiry now + TTL. -/
theorem cache_put_filter_key (st : CacheState) (key : String × String)
    (series : List OhlcvBar) (now : Nat) :
    (cache_put st key series now).entries.filter (fun p => p.1 == key) =
      [(key, ⟨series, now + cache_ttl⟩)] := by
  unfold cache_put
  rw [List.filter_cons]
  have hkey : (((key, (⟨series, now + cache_ttl⟩ : CacheEntry))).1 == key) = true := by simp
  rw [if_pos hkey]
  have hnil : List.filter (fun p => p.1 == key)
      (st.entries.filter (fun p => p.1 != key)) = [] := by
    rw [List.filter_eq_nil_iff]
    intro a ha
    have hne : a.1 ≠ key := by
      simpa [bne_iff_ne] using (List.mem_filter.mp ha).2
    simp [hne]
  rw [hnil]

/-- C4: after a cache miss, a fetch returning a non-empty series leaves the
cache holding exactly that series for (ticker, label) — one entry, fresh
expiry now + TTL, any prior entry for the key replaced — and the lookup
observes it; a fetch that fails or returns an empty series leaves the
cache state unchanged, so no entry is observable for the key. -/
theorem c4_cache_population (download : String → String → DownloadResult)
    (st : CacheState) (ticker label : String) (now : Nat)
    (hmiss : cache_lookup st (ticker, label) now = none) :
    ((cached_fetch download st ticker label now).result.series ≠ [] →
      cache_lookup (cached_fetch download st ticker label now).state
          (ticker, label) now =
        some (cached_fetch download st ticker label now).result.series ∧
      (cached_fetch download st ticker label now).state.entries.filter
          (fun p => p.1 == (ticker, label)) =
        [((ticker, label),
          ⟨(cached_fetch download st ticker label now).result.series,
           now + cache_ttl⟩)]) ∧
    ((cached_fetch download st ticker label now).result.series = [] →
      (cached_fetch download st ticker label now).state = st ∧
      cache_lookup (cached_fetch download st ticker label now).state
          (ticker, label) now = none) := by
  have heq := cached_fetch_miss_eq download st ticker label now hmiss
  by_cases hre : (get_historical_data download ticker label).series.isEmpty
  · rw [if_pos hre] at heq
    rw [heq]
    constructor
    · intro hne
      exact absurd (List.isEmpty_iff.mp hre) hne
    · intro _
      exact ⟨rfl, hmiss⟩
  · rw [if_neg hre] at heq
    rw [heq]
    constructor
    · intro _
      exact ⟨cache_lookup_put st (ticker, label) _ now,
             cache_put_filter_key st (ticker, label) _ now⟩
    · intro hemp
      exact absurd (List.isEmpty_iff.mpr hemp) hre

/-- Witness for C4: empty cache, provider returning one bar — after the
fetch the cache answers with that series for the key. -/
theorem c4_cache_population_witness :
    (cached_fetch demoDownload ⟨[]⟩ ("^GSPC") ("3M") 0).result.series ≠ [] ∧
    cache_lookup (cached_fetch demoDownload ⟨[]⟩ ("^GSPC") ("3M") 0).state
        (("^GSPC"), ("3M")) 0 =
      some (cached_fetch demoDownload ⟨[]⟩ ("^GSPC") ("3M") 0).result.series :=
  ⟨by decide,
   ((c4_cache_population demoDownload ⟨[]⟩ ("^GSPC") ("3M") 0 rfl).1 (by decide)).1⟩

/-- C7 counterexample: for a ticker whose provider returns zero rows, the
empty result is not cached (only successful non-empty results are, per the
spec's fetch contract), so two fetches in immediate succession issue TWO
upstream calls, not at most one. -/
theorem c7_counterexample :
    (cached_fetch emptyDownload ⟨[]⟩ ("INVALIDXYZ") ("3M") 0).upstream_calls +
      (cached_fetch emptyDownload
        (cached_fetch emptyDownload ⟨[]⟩ ("INVALIDXYZ") ("3M") 0).state
        ("INVALIDXYZ") ("3M") 0).upstream_calls = 2 := by decide

/-- C7 amended: two fetch calls in immediate succession for the same
(ticker, label) issue at most one upstream retrieval PROVIDED the first
call's result is a non-empty series: the first issues at most one call and
the second is a cache hit issuing none, observing the same series.  A
failed or empty first fetch is not cached, so the second call re-fetches. -/
theorem c7_second_fetch_hits (download : String → String → DownloadResult)
    (st : CacheState) (ticker label : String) (now : Nat)
    (h1 : (cached_fetch download st ticker label now).result.series ≠ []) :
    (cached_fetch download st ticker label now).upstream_calls ≤ 1 ∧
    (cached_fetch download (cached_fetch download st ticker label now).state
        ticker label now).upstream_calls = 0 ∧
    (cached_fetch download (cached_fetch download st ticker label now).state
        ticker label now).result.series =
      (cached_fetch download st ticker label now).result.series := by
  cases hl : cache_lookup st (ticker, label) now with
  | some series =>
    have heq := cached_fetch_hit_eq download st ticker label now series hl
    rw [heq]
    dsimp only
    rw [cached_fetch_hit_eq download st ticker label now series hl]
    exact ⟨by decide, rfl, rfl⟩
  | none =>
    have heq := cached_fetch_miss_eq download st ticker label now hl
    by_cases hre : (get_historical_data download ticker label).series.isEmpty
    · rw [heq, if_pos hre] at h1
      exact absurd (List.isEmpty_iff.mp hre) h1
    · rw [if_neg hre] at heq
      rw [heq]
      dsimp only
      have hput := cache_lookup_put st (ticker, label)
        (get_historical_data download ticker label).series now
      rw [cached_fetch_hit_eq download _ ticker label now _ hput]
      exact ⟨by decide, rfl, rfl⟩

/-- Witness for C7 (amended): a succeeding provider, empty cache — the
second fetch issues no upstream call. -/
theorem c7_second_fetch_hits_witness :
    (cached_fetch demoDownload ⟨[]⟩ ("^GSPC") ("3M") 0).result.series ≠ [] ∧
    (cached_fetch demoDownload (cached_fetch demoDownload ⟨[]⟩ ("^GSPC") ("3M") 0).state
        ("^GSPC") ("3M") 0).upstream_calls = 0 :=
  ⟨by decide,
   (c7_second_fetch_hits demoDownload ⟨[]⟩ ("^GSPC") ("3M") 0 (by decide)).2.1⟩

/-- C8: a fetch immediately after a manual refresh issues a new upstream
provider call for any (ticker, label) — in particular for a key that was
cached with an unexpired TTL — because the refresh clears every entry. -/
theorem c8_manual_refresh (download : String → String → DownloadResult)
    (st : CacheState) (ticker label : String) (now : Nat)
    (_hcached : cache_lookup st (ticker, label) now ≠ none) :
    (cached_fetch download (cache_clear st) ticker label now).upstream_calls = 1 := by
  have hmiss : cache_lookup (cache_clear st) (ticker, label) now = none := rfl
  rw [cached_fetch_miss_eq download (cache_clear st) ticker label now hmiss]
  by_cases hre : (get_historical_data download ticker label).series.isEmpty
  · rw [if_pos hre]
  · rw [if_neg hre]

/-- Witness for C8: a cache holding a fresh (^GSPC, 3M) entry — after the
refresh the fetch issues exactly one upstream call. -/
theorem c8_manual_refresh_witness :
    cache_lookup demoCache (("^GSPC"), ("3M")) 0 ≠ none ∧
    (cached_fetch demoDownload (cache_clear demoCache) ("^GSPC") ("3M") 0).upstream_calls = 1 :=
  ⟨by decide,
   c8_manual_refresh demoDownload demoCache ("^GSPC") ("3M") 0 (by decide)⟩
